import Mathlib

set_option maxRecDepth 4000

/-!
Verification development for the Growatt API client (`src/growatt.py`).

The client's operations each issue one HTTP request, decode the response
body as JSON, and unwrap an envelope field.  We embed the response-side
behaviour of each operation as a function from the JSON-decode outcome of
the transport's response body (`Option Json`, `none` standing for a body
that is not valid JSON) to `Except PyError Json`, mirroring the Python
exceptions (`json.JSONDecodeError`, `KeyError`, `TypeError`) that the
code can raise.  The password hasher, including a full executable MD5,
and the date-formatting helper are embedded as pure functions.
-/

/-- Decoded JSON values as produced by Python's `json.loads`. -/
inductive Json where
  | null : Json
  | bool : Bool → Json
  | str : String → Json
  | num : Int → Json
  | arr : List Json → Json
  | obj : List (String × Json) → Json

/-- The Python exceptions the client's response handling can raise:
`json.JSONDecodeError` from `json.loads`, `KeyError` from a missing dict
key, `TypeError` from subscripting a non-dict with a string key. -/
inductive PyError where
  | jsonDecodeError : PyError
  | keyError : String → PyError
  | typeError : PyError
deriving DecidableEq

/-- Field lookup in a JSON object's field list (Python dict lookup). -/
def lookupField : List (String × Json) → String → Option Json
  | [], _ => none
  | (k', v') :: rest, k => if k' = k then some v' else lookupField rest k

/-- Set a field in a JSON object's field list: replace in place if the key
is present, append otherwise (Python `dict.update` semantics for one key). -/
def setFieldList : List (String × Json) → String → Json → List (String × Json)
  | [], k, v => [(k, v)]
  | (k', v') :: rest, k, v =>
      if k' = k then (k, v) :: rest else (k', v') :: setFieldList rest k v

/-- Python subscript `j[k]` with a string key: `KeyError` when the dict
lacks the key, `TypeError` when `j` is not a dict. -/
def Json.getItem : Json → String → Except PyError Json
  | .obj fs, k =>
      match lookupField fs k with
      | some v => .ok v
      | none => .error (.keyError k)
  | _, _ => .error .typeError

/-- Python `d[k] = v` on a dict (no-op on non-dicts, which never arises). -/
def Json.setField : Json → String → Json → Json
  | .obj fs, k, v => .obj (setFieldList fs k v)
  | j, _, _ => j

/-- Python truthiness of a decoded JSON value, as tested by the login
success check. -/
def Json.truthy : Json → Bool
  | .null => false
  | .bool b => b
  | .str s => !(s == "")
  | .num n => !(n == 0)
  | .arr [] => false
  | .arr (_ :: _) => true
  | .obj [] => false
  | .obj (_ :: _) => true

/-- Outcome of decoding the response body as UTF-8 text and parsing it
with json.loads: `none` models a body that is not valid JSON. -/
def parseBody : Option Json → Except PyError Json
  | none => .error .jsonDecodeError
  | some j => .ok j

/-- Response handling of `GrowattApi.login` (src/growatt.py lines 68-74):
take field back of the decoded body; when its field success is truthy,
update the mapping with userId set to user.parentUserId and userLevel set
to user.rightlevel; return the mapping. -/
def login (body : Option Json) : Except PyError Json := do
  let data ← (← parseBody body).getItem "back"
  let s ← data.getItem "success"
  if s.truthy then
    let user ← data.getItem "user"
    let uid ← user.getItem "parentUserId"
    let lvl ← user.getItem "rightlevel"
    return (data.setField "userId" uid).setField "userLevel" lvl
  else
    return data

/-- Response handling of `GrowattApi.plant_list`: unwrap field back. -/
def plant_list (body : Option Json) : Except PyError Json := do
  (← parseBody body).getItem "back"

/-- Response handling of `GrowattApi.new_plant_list`: unwrap field back. -/
def new_plant_list (body : Option Json) : Except PyError Json := do
  (← parseBody body).getItem "back"

/-- Response handling of `GrowattApi.plant_detail`: unwrap field back. -/
def plant_detail (body : Option Json) : Except PyError Json := do
  (← parseBody body).getItem "back"

/-- Response handling of `GrowattApi.inverter_data`: whole decoded body. -/
def inverter_data (body : Option Json) : Except PyError Json :=
  parseBody body

/-- Response handling of `GrowattApi.inverter_detail`: whole decoded body. -/
def inverter_detail (body : Option Json) : Except PyError Json :=
  parseBody body

/-- Response handling of `GrowattApi.inverter_detail_two`: whole decoded body. -/
def inverter_detail_two (body : Option Json) : Except PyError Json :=
  parseBody body

/-- Response handling of `GrowattApi.tlx_data`: whole decoded body. -/
def tlx_data (body : Option Json) : Except PyError Json :=
  parseBody body

/-- Response handling of `GrowattApi.tlx_detail`: whole decoded body. -/
def tlx_detail (body : Option Json) : Except PyError Json :=
  parseBody body

/-- Response handling of `GrowattApi.mix_info`: unwrap field obj. -/
def mix_info (body : Option Json) : Except PyError Json := do
  (← parseBody body).getItem "obj"

/-- Response handling of `GrowattApi.mix_totals`: unwrap field obj. -/
def mix_totals (body : Option Json) : Except PyError Json := do
  (← parseBody body).getItem "obj"

/-- Response handling of `GrowattApi.mix_system_status`: unwrap field obj. -/
def mix_system_status (body : Option Json) : Except PyError Json := do
  (← parseBody body).getItem "obj"

/-- Response handling of `GrowattApi.mix_detail`: unwrap field obj. -/
def mix_detail (body : Option Json) : Except PyError Json := do
  (← parseBody body).getItem "obj"

/-- Response handling of `GrowattApi.dashboard_data`: whole decoded body. -/
def dashboard_data (body : Option Json) : Except PyError Json :=
  parseBody body

/-- Response handling of `GrowattApi.storage_detail`: whole decoded body. -/
def storage_detail (body : Option Json) : Except PyError Json :=
  parseBody body

/-- Response handling of `GrowattApi.storage_params`: whole decoded body. -/
def storage_params (body : Option Json) : Except PyError Json :=
  parseBody body

/-- Response handling of `GrowattApi.storage_energy_overview`: unwrap field obj. -/
def storage_energy_overview (body : Option Json) : Except PyError Json := do
  (← parseBody body).getItem "obj"

/-- Response handling of `GrowattApi.plant_info`: whole decoded body. -/
def plant_info (body : Option Json) : Except PyError Json :=
  parseBody body

/-- Response handling of `GrowattApi.get_plant_settings`: whole decoded body. -/
def get_plant_settings (body : Option Json) : Except PyError Json :=
  parseBody body

/-- `GrowattApi.device_list`: field deviceList of the plant_info result. -/
def device_list (body : Option Json) : Except PyError Json := do
  (← plant_info body).getItem "deviceList"

/-- The deprecation message passed to `warnings.warn` in
`GrowattApi.inverter_list`. -/
def deprecation_message : String :=
  "This function may be deprecated in the future because naming is not correct, use device_list instead"

/-- `GrowattApi.inverter_list`: emits a `DeprecationWarning` and delegates
to `device_list`.  The second component records the warnings emitted. -/
def inverter_list (body : Option Json) : Except PyError Json × List String :=
  (device_list body, [deprecation_message])

/-- The `Timespan` enumeration (`hour = 0`, `day = 1`, `month = 2`). -/
inductive Timespan where
  | hour : Timespan
  | day : Timespan
  | month : Timespan
deriving DecidableEq

/-- Integer code of a `Timespan` member (`IntEnum` value). -/
def Timespan.value : Timespan → Nat
  | .hour => 0
  | .day => 1
  | .month => 2

/-- A calendar date, the part of `datetime.datetime` / `datetime.date`
that the strftime format directives %Y, %m and %d consume. -/
structure Date where
  year : Nat
  month : Nat
  day : Nat
deriving DecidableEq

/-- Zero-pad a number to two digits (`strftime` `%m` / `%d`). -/
def pad2 (n : Nat) : String :=
  (if n < 10 then "0" else "") ++ toString n

/-- Zero-pad a number to four digits (`strftime` `%Y`). -/
def pad4 (n : Nat) : String :=
  (if n < 10 then "000" else if n < 100 then "00" else if n < 1000 then "0" else "")
    ++ toString n

/-- strftime with format %Y-%m. -/
def formatYM (d : Date) : String :=
  pad4 d.year ++ "-" ++ pad2 d.month

/-- strftime with format %Y-%m-%d. -/
def formatYMD (d : Date) : String :=
  pad4 d.year ++ "-" ++ pad2 d.month ++ "-" ++ pad2 d.day

/-- `GrowattApi.__get_date_string`: defaults the date to "now" when absent
(a `datetime` is always truthy, so `date or now` is `date` when supplied);
formats as `%Y-%m` exactly when the timespan equals `Timespan.month`
(`None == Timespan.month` is false in Python), else as `%Y-%m-%d`.  The
`assert timespan in Timespan` is vacuous in this embedding because
`Timespan` is a closed inductive type. -/
def get_date_string (timespan : Option Timespan) (date : Option Date) (now : Date) : String :=
  let d := date.getD now
  match timespan with
  | some .month => formatYM d
  | _ => formatYMD d

/-- The form data sent by `GrowattApi.login` to `newTwoLoginAPI.do`. -/
structure LoginRequestData where
  userName : String
  password : String
  NewLogin : Nat
deriving DecidableEq

/-- UTF-8 encoding of a Unicode code point, byte values as `Nat`. -/
def utf8Encode (c : Nat) : List Nat :=
  if c < 128 then [c]
  else if c < 2048 then
    [192 ||| (c >>> 6), 128 ||| (c &&& 63)]
  else if c < 65536 then
    [224 ||| (c >>> 12), 128 ||| ((c >>> 6) &&& 63), 128 ||| (c &&& 63)]
  else
    [240 ||| (c >>> 18), 128 ||| ((c >>> 12) &&& 63),
     128 ||| ((c >>> 6) &&& 63), 128 ||| (c &&& 63)]

/-- The UTF-8 bytes of a string (Python str.encode with encoding utf-8). -/
def strToBytes (s : String) : List Nat :=
  s.data.flatMap (fun c => utf8Encode c.toNat)

/-- Reduction modulo 2^32, the word size of the MD5 state. -/
def w32 (n : Nat) : Nat := n % 4294967296

/-- Bitwise complement on 32-bit words (operands are kept below 2^32). -/
def compl32 (x : Nat) : Nat := 4294967295 ^^^ x

/-- Left rotation of a 32-bit word by `s` bits. -/
def rotl (x s : Nat) : Nat := w32 (x <<< s) ||| (x >>> (32 - s))

/-- The four 32-bit registers of the MD5 state. -/
structure MD5State where
  a : Nat
  b : Nat
  c : Nat
  d : Nat

/-- MD5 round function F (rounds 0-15). -/
def md5F (b c d : Nat) : Nat := (b &&& c) ||| (compl32 b &&& d)

/-- MD5 round function G (rounds 16-31). -/
def md5G (b c d : Nat) : Nat := (d &&& b) ||| (compl32 d &&& c)

/-- MD5 round function H (rounds 32-47). -/
def md5H (b c d : Nat) : Nat := b ^^^ c ^^^ d

/-- MD5 round function I (rounds 48-63). -/
def md5I (b c d : Nat) : Nat := c ^^^ (b ||| compl32 d)

/-- The 64 MD5 additive constants (RFC 1321). -/
def md5K : List Nat :=
  [0xd76aa478, 0xe8c7b756, 0x242070db, 0xc1bdceee,
   0xf57c0faf, 0x4787c62a, 0xa8304613, 0xfd469501,
   0x698098d8, 0x8b44f7af, 0xffff5bb1, 0x895cd7be,
   0x6b901122, 0xfd987193, 0xa679438e, 0x49b40821,
   0xf61e2562, 0xc040b340, 0x265e5a51, 0xe9b6c7aa,
   0xd62f105d, 0x02441453, 0xd8a1e681, 0xe7d3fbc8,
   0x21e1cde6, 0xc33707d6, 0xf4d50d87, 0x455a14ed,
   0xa9e3e905, 0xfcefa3f8, 0x676f02d9, 0x8d2a4c8a,
   0xfffa3942, 0x8771f681, 0x6d9d6122, 0xfde5380c,
   0xa4beea44, 0x4bdecfa9, 0xf6bb4b60, 0xbebfbc70,
   0x289b7ec6, 0xeaa127fa, 0xd4ef3085, 0x04881d05,
   0xd9d4d039, 0xe6db99e5, 0x1fa27cf8, 0xc4ac5665,
   0xf4292244, 0x432aff97, 0xab9423a7, 0xfc93a039,
   0x655b59c3, 0x8f0ccc92, 0xffeff47d, 0x85845dd1,
   0x6fa87e4f, 0xfe2ce6e0, 0xa3014314, 0x4e0811a1,
   0xf7537e82, 0xbd3af235, 0x2ad7d2bb, 0xeb86d391]

/-- The 64 MD5 per-round left-rotation amounts (RFC 1321). -/
def md5S : List Nat :=
  [7, 12, 17, 22, 7, 12, 17, 22, 7, 12, 17, 22, 7, 12, 17, 22,
   5, 9, 14, 20, 5, 9, 14, 20, 5, 9, 14, 20, 5, 9, 14, 20,
   4, 11, 16, 23, 4, 11, 16, 23, 4, 11, 16, 23, 4, 11, 16, 23,
   6, 10, 15, 21, 6, 10, 15, 21, 6, 10, 15, 21, 6, 10, 15, 21]

/-- One MD5 round: round index `i`, message words `M` of the chunk. -/
def md5Round (M : List Nat) (st : MD5State) (i : Nat) : MD5State :=
  let f :=
    if i < 16 then md5F st.b st.c st.d
    else if i < 32 then md5G st.b st.c st.d
    else if i < 48 then md5H st.b st.c st.d
    else md5I st.b st.c st.d
  let g :=
    if i < 16 then i
    else if i < 32 then (5 * i + 1) % 16
    else if i < 48 then (3 * i + 5) % 16
    else (7 * i) % 16
  let x := w32 (f + st.a + md5K.getD i 0 + M.getD g 0)
  { a := st.d, b := w32 (st.b + rotl x (md5S.getD i 0)), c := st.b, d := st.c }

/-- The 8-byte little-endian encoding of the message bit length. -/
def md5LengthBytes (len : Nat) : List Nat :=
  (List.range 8).map (fun i => ((8 * len) >>> (8 * i)) % 256)

/-- MD5 padding: a 0x80 byte, zeros to 56 mod 64, then the bit length. -/
def md5Pad (msg : List Nat) : List Nat :=
  msg ++ [128] ++ List.replicate ((119 - msg.length % 64) % 64) 0
    ++ md5LengthBytes msg.length

/-- The 16 little-endian 32-bit message words of a 64-byte chunk. -/
def chunkWords (chunk : List Nat) : List Nat :=
  (List.range 16).map (fun j =>
    chunk.getD (4 * j) 0 + 256 * chunk.getD (4 * j + 1) 0
      + 65536 * chunk.getD (4 * j + 2) 0 + 16777216 * chunk.getD (4 * j + 3) 0)

/-- Process one 64-byte chunk: 64 rounds, then add into the state. -/
def md5ProcessChunk (st : MD5State) (chunk : List Nat) : MD5State :=
  let M := chunkWords chunk
  let r := (List.range 64).foldl (md5Round M) st
  ⟨w32 (st.a + r.a), w32 (st.b + r.b), w32 (st.c + r.c), w32 (st.d + r.d)⟩

/-- The MD5 initialisation vector. -/
def md5Init : MD5State := ⟨0x67452301, 0xefcdab89, 0x98badcfe, 0x10325476⟩

/-- The 4 little-endian bytes of a 32-bit word. -/
def wordLE (w : Nat) : List Nat :=
  [w % 256, (w >>> 8) % 256, (w >>> 16) % 256, (w >>> 24) % 256]

/-- The 16-byte MD5 digest of a byte sequence. -/
def md5Bytes (msg : List Nat) : List Nat :=
  let padded := md5Pad msg
  let chunks := (List.range (padded.length / 64)).map
    (fun k => (padded.drop (64 * k)).take 64)
  let fin := chunks.foldl md5ProcessChunk md5Init
  wordLE fin.a ++ wordLE fin.b ++ wordLE fin.c ++ wordLE fin.d

/-- Lowercase hexadecimal digit for a value below 16. -/
def hexDigit (n : Nat) : Char :=
  "0123456789abcdef".data.getD n '*'

/-- The two lowercase hex characters of one byte. -/
def toHexPair (b : Nat) : List Char :=
  [hexDigit (b / 16), hexDigit (b % 16)]

/-- hashlib md5 hexdigest: the 32 lowercase hex characters of the digest. -/
def md5Hexdigest (msg : List Nat) : List Char :=
  (md5Bytes msg).flatMap toHexPair

/-- One iteration of the substitution loop in `hash_password`: if the
character at index `i` is the digit zero, replace it by the letter c. -/
def substStep (s : List Char) (i : Nat) : List Char :=
  if s.get? i = some '0' then s.set i 'c' else s

/-- `hash_password` (src/growatt.py lines 12-21): MD5-hexdigest the UTF-8
bytes of the password, then loop over indices 0, 2, 4, ... below the
digest length, replacing the character there by the letter c whenever it
is the digit zero. -/
def hash_password (password : String) : String :=
  let password_md5 := md5Hexdigest (strToBytes password)
  ⟨(List.range' 0 ((password_md5.length + 1) / 2) 2).foldl substStep password_md5⟩

/-- Reference definition following the words of the spec (section 4.1 and
the C2 claim): take the lowercase 32-character MD5 hex digest of the UTF-8
encoding of the password, then for each even index i in 0, 2, 4, ..., 30,
if the character at i is the digit zero, replace it with the letter c.
Kept separate from `hash_password` so the two can be compared. -/
def spec_hash (p : String) : String :=
  let digest := md5Hexdigest (strToBytes p)
  ⟨[0, 2, 4, 6, 8, 10, 12, 14, 16, 18, 20, 22, 24, 26, 28, 30].foldl
      substStep digest⟩

/-- Request building of `GrowattApi.login` (src/growatt.py lines 59-67):
the password form field is the hash of the supplied password unless the
is-password-hashed flag is set, in which case it is sent verbatim. -/
def login_request (username password : String) (is_password_hashed : Bool) : LoginRequestData :=
  let pw := if is_password_hashed = false then hash_password password else password
  { userName := username, password := pw, NewLogin := 1 }

/-- The class attribute server_url of `GrowattApi`. -/
def server_url : String := "https://server-api.growatt.com/"

/-- `GrowattApi.get_url`: base URL concatenated with the page path. -/
def get_url (page : String) : String := server_url ++ page


/-- Support: the sixteen lowercase hexadecimal digit characters. -/
def hexLowerChars : List Char := "0123456789abcdef".data

/-- Support: the substitution applied to the first character of a
two-character group of the digest. -/
def subst1 (c : Char) : Char := if c = '0' then 'c' else c

/-- Support: simultaneous form of the substitution loop of
`hash_password`, substituting the first character of every group. -/
def pairSubst : List Char → List Char
  | c0 :: c1 :: rest => subst1 c0 :: c1 :: pairSubst rest
  | l => l

/-- Support: whether an embedded operation models a raised exception. -/
def raises (e : Except PyError Json) : Bool :=
  match e with
  | .error _ => true
  | .ok _ => false

/-- Support: a sample decoded body holding all three envelope fields. -/
def sampleEnvelope : Json :=
  .obj [("back", .num 1), ("obj", .num 2), ("deviceList", .num 3)]

theorem lookupField_setFieldList_self (fs : List (String × Json)) (k : String) (v : Json) :
    lookupField (setFieldList fs k v) k = some v := by
  induction fs with
  | nil => simp [setFieldList, lookupField]
  | cons p rest ih =>
      obtain ⟨k', v'⟩ := p
      by_cases h : k' = k
      · simp [setFieldList, lookupField, h]
      · simp [setFieldList, lookupField, h, ih]

theorem lookupField_setFieldList_other (fs : List (String × Json)) (k k0 : String) (v : Json)
    (h : k0 ≠ k) : lookupField (setFieldList fs k v) k0 = lookupField fs k0 := by
  induction fs with
  | nil => simp [setFieldList, lookupField, Ne.symm h]
  | cons p rest ih =>
      obtain ⟨k', v'⟩ := p
      by_cases hk : k' = k
      · subst hk
        simp [setFieldList, lookupField, Ne.symm h]
      · simp [setFieldList, lookupField, hk, ih]

theorem getItem_setField_self (fs : List (String × Json)) (k : String) (v : Json) :
    (Json.setField (.obj fs) k v).getItem k = .ok v := by
  simp [Json.setField, Json.getItem, lookupField_setFieldList_self]

theorem getItem_setField_other (fs : List (String × Json)) (k k0 : String) (v : Json)
    (h : k0 ≠ k) :
    (Json.setField (.obj fs) k v).getItem k0 = (Json.obj fs).getItem k0 := by
  simp [Json.setField, Json.getItem, lookupField_setFieldList_other fs k k0 v h]

theorem login_eq_of_success (j back s user uid lvl : Json)
    (hback : j.getItem "back" = .ok back) (hs : back.getItem "success" = .ok s)
    (ht : s.truthy = true) (hu : back.getItem "user" = .ok user)
    (hp : user.getItem "parentUserId" = .ok uid)
    (hr : user.getItem "rightlevel" = .ok lvl) :
    login (some j) = .ok ((back.setField "userId" uid).setField "userLevel" lvl) := by
  simp [login, parseBody, Except.instMonad, Bind.bind, Except.bind, Functor.map,
    Except.map, Pure.pure, Except.pure, hback, hs, ht, hu, hp, hr]

theorem login_eq_of_falsy (j back s : Json)
    (hback : j.getItem "back" = .ok back) (hs : back.getItem "success" = .ok s)
    (ht : s.truthy = false) :
    login (some j) = .ok back := by
  simp [login, parseBody, Except.instMonad, Bind.bind, Except.bind, Functor.map,
    Except.map, Pure.pure, Except.pure, hback, hs, ht]

theorem unwrap_of_getItem (body : Option Json) (j : Json) (k : String) (v : Json)
    (hb : parseBody body = .ok j) (h : j.getItem k = .ok v) :
    (do (← parseBody body).getItem k : Except PyError Json) = .ok v := by
  simp [Except.instMonad, Bind.bind, Except.bind, hb, h]

theorem unwrap_missing_key (body : Option Json) (fs : List (String × Json)) (k : String)
    (hb : parseBody body = .ok (.obj fs)) (h : lookupField fs k = none) :
    (do (← parseBody body).getItem k : Except PyError Json) = .error (.keyError k) := by
  simp [Except.instMonad, Bind.bind, Except.bind, hb, Json.getItem, h]

theorem login_missing_back (fs : List (String × Json)) (h : lookupField fs "back" = none) :
    login (some (.obj fs)) = .error (.keyError "back") := by
  simp [login, parseBody, Except.instMonad, Bind.bind, Except.bind, Json.getItem, h]

/-- Claim C1, counterexample: at a concrete payload whose back.success is
false, login raises nothing: it returns the back mapping as a normal
result, so no distinguishable authentication error reaches the caller,
refuting the claim as stated. -/
theorem login_success_false_counterexample :
    raises (login (some (Json.obj [("back", Json.obj [("success", Json.bool false)])]))) = false
    ∧ login (some (Json.obj [("back", Json.obj [("success", Json.bool false)])]))
        = .ok (Json.obj [("success", Json.bool false)]) :=
  ⟨rfl, rfl⟩

/-- Claim C1, amended: for every login call whose decoded response
envelope has success equal to false, login raises no error and returns
the back mapping unchanged; the caller must inspect the success field
itself. -/
theorem login_success_false_returns_normally (j back : Json)
    (hback : j.getItem "back" = .ok back)
    (hs : back.getItem "success" = .ok (Json.bool false)) :
    login (some j) = .ok back ∧ raises (login (some j)) = false := by
  have h := login_eq_of_falsy j back (Json.bool false) hback hs rfl
  exact ⟨h, by rw [h]; rfl⟩

/-- Witness for the amended C1 theorem. -/
theorem login_success_false_returns_normally_witness :
    login (some (Json.obj [("back",
        Json.obj [("success", Json.bool false), ("msg", Json.str "507")])]))
      = .ok (Json.obj [("success", Json.bool false), ("msg", Json.str "507")]) :=
  (login_success_false_returns_normally
    (Json.obj [("back",
        Json.obj [("success", Json.bool false), ("msg", Json.str "507")])])
    (Json.obj [("success", Json.bool false), ("msg", Json.str "507")]) rfl rfl).1

/-- Claim C10: for every login call whose decoded response envelope has a
falsy success value, login returns the decoded back mapping itself,
completely unchanged, without raising and without adding the userId or
userLevel keys. -/
theorem login_falsy_returns_back_unchanged (j back s : Json)
    (hback : j.getItem "back" = .ok back)
    (hs : back.getItem "success" = .ok s)
    (ht : s.truthy = false) :
    login (some j) = .ok back :=
  login_eq_of_falsy j back s hback hs ht

/-- Witness for the C10 theorem, with a falsy non-boolean success value. -/
theorem login_falsy_returns_back_unchanged_witness :
    login (some (Json.obj [("back", Json.obj [("success", Json.num 0)])]))
      = .ok (Json.obj [("success", Json.num 0)]) :=
  login_falsy_returns_back_unchanged
    (Json.obj [("back", Json.obj [("success", Json.num 0)])])
    (Json.obj [("success", Json.num 0)]) (Json.num 0) rfl rfl rfl

/-- Claim C5: for every login call whose decoded response envelope has a
truthy success field, the result is the back envelope augmented with
userId set to the nested user.parentUserId and userLevel set to the
nested user.rightlevel, every other field unchanged. -/
theorem login_success_adds_user_fields (j back s user uid lvl : Json)
    (hback : j.getItem "back" = .ok back) (hs : back.getItem "success" = .ok s)
    (ht : s.truthy = true) (hu : back.getItem "user" = .ok user)
    (hp : user.getItem "parentUserId" = .ok uid)
    (hr : user.getItem "rightlevel" = .ok lvl) :
    login (some j) = .ok ((back.setField "userId" uid).setField "userLevel" lvl)
    ∧ ((back.setField "userId" uid).setField "userLevel" lvl).getItem "userId" = .ok uid
    ∧ ((back.setField "userId" uid).setField "userLevel" lvl).getItem "userLevel" = .ok lvl
    ∧ ∀ k : String, k ≠ "userId" → k ≠ "userLevel" →
        ((back.setField "userId" uid).setField "userLevel" lvl).getItem k = back.getItem k := by
  obtain ⟨fs, rfl⟩ : ∃ fs, back = Json.obj fs := by
    cases back
    case obj fs => exact ⟨fs, rfl⟩
    all_goals simp [Json.getItem] at hs
  refine ⟨login_eq_of_success _ _ _ _ _ _ hback hs ht hu hp hr, ?_, ?_, ?_⟩
  · rw [show (Json.obj fs).setField "userId" uid
        = Json.obj (setFieldList fs "userId" uid) from rfl]
    rw [getItem_setField_other _ _ _ _ (by decide)]
    exact getItem_setField_self fs "userId" uid
  · rw [show (Json.obj fs).setField "userId" uid
        = Json.obj (setFieldList fs "userId" uid) from rfl]
    exact getItem_setField_self _ "userLevel" lvl
  · intro k h1 h2
    rw [show (Json.obj fs).setField "userId" uid
        = Json.obj (setFieldList fs "userId" uid) from rfl]
    rw [getItem_setField_other _ _ _ _ h2]
    exact getItem_setField_other _ _ _ _ h1

/-- Witness for the C5 theorem at the concrete payload of the spec. -/
theorem login_success_adds_user_fields_witness :
    login (some (Json.obj [("back", Json.obj [("success", Json.bool true),
        ("user", Json.obj [("parentUserId", Json.str "7"),
          ("rightlevel", Json.str "1")])])]))
      = .ok (Json.obj [("success", Json.bool true),
          ("user", Json.obj [("parentUserId", Json.str "7"),
            ("rightlevel", Json.str "1")]),
          ("userId", Json.str "7"), ("userLevel", Json.str "1")])
    ∧ (Json.obj [("success", Json.bool true),
          ("user", Json.obj [("parentUserId", Json.str "7"),
            ("rightlevel", Json.str "1")]),
          ("userId", Json.str "7"), ("userLevel", Json.str "1")]).getItem "userId"
        = .ok (Json.str "7") := by
  have h := login_success_adds_user_fields
    (Json.obj [("back", Json.obj [("success", Json.bool true),
        ("user", Json.obj [("parentUserId", Json.str "7"),
          ("rightlevel", Json.str "1")])])])
    (Json.obj [("success", Json.bool true),
        ("user", Json.obj [("parentUserId", Json.str "7"),
          ("rightlevel", Json.str "1")])])
    (Json.bool true)
    (Json.obj [("parentUserId", Json.str "7"), ("rightlevel", Json.str "1")])
    (Json.str "7") (Json.str "1") rfl rfl rfl rfl rfl rfl
  exact ⟨h.1, h.2.1⟩

/-- Claim C4: the date helper formats as year-month exactly when the
timespan is month and as year-month-day otherwise, including when the
timespan is unspecified, hour, or day; pinned at the date 2024-03-15. -/
theorem get_date_string_formats :
    (∀ (ts : Option Timespan) (d now : Date),
        get_date_string ts (some d) now
          = if ts = some Timespan.month then formatYM d else formatYMD d)
    ∧ get_date_string (some Timespan.month) (some ⟨2024, 3, 15⟩) ⟨2000, 1, 1⟩ = "2024-03"
    ∧ get_date_string (some Timespan.day) (some ⟨2024, 3, 15⟩) ⟨2000, 1, 1⟩ = "2024-03-15"
    ∧ get_date_string (some Timespan.hour) (some ⟨2024, 3, 15⟩) ⟨2000, 1, 1⟩ = "2024-03-15"
    ∧ get_date_string none (some ⟨2024, 3, 15⟩) ⟨2000, 1, 1⟩ = "2024-03-15" := by
  refine ⟨?_, by rfl, by rfl, by rfl, by rfl⟩
  intro ts d now
  rcases ts with _ | t
  · rfl
  · cases t <;> rfl

/-- Claim C9: the password form field of the login request is the hash of
the supplied password when the already-hashed flag is false (the
default), and the supplied string verbatim when the flag is true. -/
theorem login_request_password_field (username password : String) :
    (login_request username password false).password = hash_password password
    ∧ (login_request username password true).password = password :=
  ⟨rfl, rfl⟩

/-- Claim C6: every tabulated operation returns exactly the sub-object
under its unwrap field when the decoded body carries it: back for
plant_detail and the plant-list operations, obj for the mix and
storage-energy-overview operations, deviceList of the plant_info result
for device_list, and the whole decoded body for the remaining
operations. -/
theorem operations_unwrap_envelope (j vb vo vd : Json) :
    (j.getItem "back" = .ok vb →
      plant_list (some j) = .ok vb ∧ new_plant_list (some j) = .ok vb
      ∧ plant_detail (some j) = .ok vb)
    ∧ (j.getItem "obj" = .ok vo →
      mix_info (some j) = .ok vo ∧ mix_totals (some j) = .ok vo
      ∧ mix_system_status (some j) = .ok vo ∧ mix_detail (some j) = .ok vo
      ∧ storage_energy_overview (some j) = .ok vo)
    ∧ (j.getItem "deviceList" = .ok vd → device_list (some j) = .ok vd)
    ∧ (inverter_data (some j) = .ok j ∧ inverter_detail (some j) = .ok j
      ∧ inverter_detail_two (some j) = .ok j ∧ tlx_data (some j) = .ok j
      ∧ tlx_detail (some j) = .ok j ∧ dashboard_data (some j) = .ok j
      ∧ storage_detail (some j) = .ok j ∧ storage_params (some j) = .ok j
      ∧ plant_info (some j) = .ok j ∧ get_plant_settings (some j) = .ok j) := by
  refine ⟨fun h => ⟨?_, ?_, ?_⟩, fun h => ⟨?_, ?_, ?_, ?_, ?_⟩, fun h => ?_,
    rfl, rfl, rfl, rfl, rfl, rfl, rfl, rfl, rfl, rfl⟩
  all_goals exact unwrap_of_getItem _ _ _ _ rfl h

/-- Witness for the C6 theorem at a concrete three-field envelope. -/
theorem operations_unwrap_envelope_witness :
    plant_list (some sampleEnvelope) = .ok (Json.num 1)
    ∧ mix_info (some sampleEnvelope) = .ok (Json.num 2)
    ∧ device_list (some sampleEnvelope) = .ok (Json.num 3)
    ∧ storage_detail (some sampleEnvelope) = .ok sampleEnvelope := by
  have h := operations_unwrap_envelope sampleEnvelope (Json.num 1) (Json.num 2) (Json.num 3)
  exact ⟨(h.1 rfl).1, (h.2.1 rfl).1, h.2.2.1 rfl, h.2.2.2.2.2.2.2.2.2.1⟩

/-- Claim C7: a body that is not valid JSON makes every operation fail
with the JSON decode error, and a decoded object lacking the expected
unwrap field makes the unwrapping operations fail with the key error
naming that field; no partial or null result is returned. -/
theorem operations_fail_without_envelope :
    (login none = .error .jsonDecodeError
     ∧ plant_list none = .error .jsonDecodeError
     ∧ new_plant_list none = .error .jsonDecodeError
     ∧ plant_detail none = .error .jsonDecodeError
     ∧ inverter_data none = .error .jsonDecodeError
     ∧ inverter_detail none = .error .jsonDecodeError
     ∧ inverter_detail_two none = .error .jsonDecodeError
     ∧ tlx_data none = .error .jsonDecodeError
     ∧ tlx_detail none = .error .jsonDecodeError
     ∧ mix_info none = .error .jsonDecodeError
     ∧ mix_totals none = .error .jsonDecodeError
     ∧ mix_system_status none = .error .jsonDecodeError
     ∧ mix_detail none = .error .jsonDecodeError
     ∧ dashboard_data none = .error .jsonDecodeError
     ∧ storage_detail none = .error .jsonDecodeError
     ∧ storage_params none = .error .jsonDecodeError
     ∧ storage_energy_overview none = .error .jsonDecodeError
     ∧ plant_info none = .error .jsonDecodeError
     ∧ get_plant_settings none = .error .jsonDecodeError
     ∧ device_list none = .error .jsonDecodeError
     ∧ (inverter_list none).1 = .error .jsonDecodeError)
    ∧ (∀ fs : List (String × Json), lookupField fs "back" = none →
        login (some (.obj fs)) = .error (.keyError "back")
        ∧ plant_list (some (.obj fs)) = .error (.keyError "back")
        ∧ new_plant_list (some (.obj fs)) = .error (.keyError "back")
        ∧ plant_detail (some (.obj fs)) = .error (.keyError "back"))
    ∧ (∀ fs : List (String × Json), lookupField fs "obj" = none →
        mix_info (some (.obj fs)) = .error (.keyError "obj")
        ∧ mix_totals (some (.obj fs)) = .error (.keyError "obj")
        ∧ mix_system_status (some (.obj fs)) = .error (.keyError "obj")
        ∧ mix_detail (some (.obj fs)) = .error (.keyError "obj")
        ∧ storage_energy_overview (some (.obj fs)) = .error (.keyError "obj"))
    ∧ (∀ fs : List (String × Json), lookupField fs "deviceList" = none →
        device_list (some (.obj fs)) = .error (.keyError "deviceList")
        ∧ (inverter_list (some (.obj fs))).1 = .error (.keyError "deviceList")) := by
  refine ⟨⟨rfl, rfl, rfl, rfl, rfl, rfl, rfl, rfl, rfl, rfl, rfl, rfl, rfl, rfl,
      rfl, rfl, rfl, rfl, rfl, rfl, rfl⟩,
    fun fs h => ⟨login_missing_back fs h, ?_, ?_, ?_⟩,
    fun fs h => ⟨?_, ?_, ?_, ?_, ?_⟩,
    fun fs h => ⟨?_, ?_⟩⟩
  all_goals exact unwrap_missing_key _ fs _ rfl h

/-- Witness for the C7 theorem at the empty object and the missing body. -/
theorem operations_fail_without_envelope_witness :
    plant_list (some (Json.obj [])) = .error (.keyError "back")
    ∧ mix_info (some (Json.obj [])) = .error (.keyError "obj")
    ∧ device_list (some (Json.obj [])) = .error (.keyError "deviceList")
    ∧ login none = .error .jsonDecodeError := by
  have h := operations_fail_without_envelope
  exact ⟨(h.2.1 [] rfl).2.1, (h.2.2.1 [] rfl).1, (h.2.2.2 [] rfl).1, h.1.1⟩

/-- Claim C8: device_list returns exactly the deviceList field of the
plant_info result, and the deprecated inverter_list alias returns the
identical result while emitting the deprecation warning. -/
theorem device_list_matches_plant_info_field (body : Option Json) (j v : Json) :
    (plant_info body = .ok j → j.getItem "deviceList" = .ok v →
      device_list body = .ok v)
    ∧ (inverter_list body).1 = device_list body
    ∧ (inverter_list body).2 = [deprecation_message] := by
  refine ⟨fun h1 h2 => ?_, rfl, rfl⟩
  exact unwrap_of_getItem body j "deviceList" v h1 h2

/-- Witness for the C8 theorem at a concrete plant_info payload. -/
theorem device_list_matches_plant_info_field_witness :
    device_list (some (Json.obj [("deviceList", Json.arr [])])) = .ok (Json.arr [])
    ∧ (inverter_list (some (Json.obj [("deviceList", Json.arr [])]))).2
        = [deprecation_message] := by
  have h := device_list_matches_plant_info_field
    (some (Json.obj [("deviceList", Json.arr [])]))
    (Json.obj [("deviceList", Json.arr [])]) (Json.arr [])
  exact ⟨h.1 rfl rfl, h.2.2⟩

theorem flatMap_toHexPair_length (bs : List Nat) :
    (bs.flatMap toHexPair).length = 2 * bs.length := by
  induction bs with
  | nil => rfl
  | cons b rest ih =>
      simp only [List.flatMap_cons, List.length_append, List.length_cons, ih, toHexPair,
        List.length_nil]
      omega

theorem md5Bytes_length (msg : List Nat) : (md5Bytes msg).length = 16 := by
  simp [md5Bytes, wordLE]

theorem md5Hexdigest_length (msg : List Nat) : (md5Hexdigest msg).length = 32 := by
  rw [md5Hexdigest, flatMap_toHexPair_length, md5Bytes_length]

theorem substStep_length (l : List Char) (i : Nat) : (substStep l i).length = l.length := by
  show (if l.get? i = some '0' then l.set i 'c' else l).length = l.length
  by_cases h : l.get? i = some '0'
  · rw [if_pos h, List.length_set]
  · rw [if_neg h]

theorem foldl_substStep_length (is : List Nat) :
    ∀ l : List Char, (List.foldl substStep l is).length = l.length := by
  induction is with
  | nil => intro l; rfl
  | cons i is ih => intro l; rw [List.foldl_cons, ih, substStep_length]

theorem substStep_subset (l : List Char) (i : Nat) (c : Char) (h : c ∈ substStep l i) :
    c ∈ l ∨ c = 'c' := by
  by_cases hg : l.get? i = some '0'
  · rw [substStep, if_pos hg] at h
    exact List.mem_or_eq_of_mem_set h
  · rw [substStep, if_neg hg] at h
    exact Or.inl h

theorem foldl_substStep_subset (is : List Nat) :
    ∀ (l : List Char) (c : Char), c ∈ List.foldl substStep l is → c ∈ l ∨ c = 'c' := by
  induction is with
  | nil => intro l c h; exact Or.inl h
  | cons i is ih =>
      intro l c h
      rw [List.foldl_cons] at h
      rcases ih (substStep l i) c h with h' | h'
      · exact substStep_subset l i c h'
      · exact Or.inr h'

theorem substStep_cons2 (x0 x1 : Char) (l : List Char) (s : Nat) :
    substStep (x0 :: x1 :: l) (s + 2) = x0 :: x1 :: substStep l s := by
  show (if (x0 :: x1 :: l).get? (s + 2) = some '0' then (x0 :: x1 :: l).set (s + 2) 'c'
      else x0 :: x1 :: l)
    = x0 :: x1 :: (if l.get? s = some '0' then l.set s 'c' else l)
  have hget : (x0 :: x1 :: l).get? (s + 2) = l.get? s := rfl
  rw [hget]
  by_cases h : l.get? s = some '0'
  · rw [if_pos h, if_pos h]
    rfl
  · rw [if_neg h, if_neg h]

theorem foldl_substStep_shift (n : Nat) :
    ∀ (s : Nat) (x0 x1 : Char) (l : List Char),
      List.foldl substStep (x0 :: x1 :: l) (List.range' (s + 2) n 2)
        = x0 :: x1 :: List.foldl substStep l (List.range' s n 2) := by
  induction n with
  | zero => intro s x0 x1 l; rfl
  | succ n ih =>
      intro s x0 x1 l
      rw [List.range'_succ, List.range'_succ, List.foldl_cons, List.foldl_cons,
        substStep_cons2]
      exact ih (s + 2) x0 x1 (substStep l s)

theorem substStep_zero (c0 c1 : Char) (l : List Char) :
    substStep (c0 :: c1 :: l) 0 = subst1 c0 :: c1 :: l := by
  by_cases hc : c0 = '0' <;> simp [substStep, subst1, hc, List.set]

theorem foldl_substStep_eq_pairSubst (n : Nat) :
    ∀ l : List Char, l.length = 2 * n →
      List.foldl substStep l (List.range' 0 n 2) = pairSubst l := by
  induction n with
  | zero =>
      intro l h
      have hl : l = [] := List.length_eq_zero.mp (by omega)
      subst hl; rfl
  | succ n ih =>
      intro l h
      rcases l with _ | ⟨c0, _ | ⟨c1, rest⟩⟩
      · simp at h
      · simp at h; omega
      · have hr : rest.length = 2 * n := by
          simp only [List.length_cons] at h; omega
        rw [List.range'_succ, List.foldl_cons, substStep_zero,
          foldl_substStep_shift n 0 (subst1 c0) c1 rest, ih rest hr]
        rfl

theorem subst1_ne_zero (c : Char) : subst1 c ≠ '0' := by
  rw [subst1]
  by_cases h : c = '0'
  · rw [if_pos h]; decide
  · rw [if_neg h]; exact h

theorem pairSubst_get?_even (n : Nat) :
    ∀ (l : List Char) (i : Nat), l.length = 2 * n → i % 2 = 0 →
      (pairSubst l).get? i ≠ some '0' := by
  induction n with
  | zero =>
      intro l i h _
      have hl : l = [] := List.length_eq_zero.mp (by omega)
      subst hl
      simp [pairSubst]
  | succ n ih =>
      intro l i h hi
      rcases l with _ | ⟨c0, _ | ⟨c1, rest⟩⟩
      · simp at h
      · simp at h; omega
      · have hr : rest.length = 2 * n := by
          simp only [List.length_cons] at h; omega
        have hps : pairSubst (c0 :: c1 :: rest) = subst1 c0 :: c1 :: pairSubst rest := rfl
        rw [hps]
        rcases i with _ | ⟨_ | i⟩
        · intro hc
          exact subst1_ne_zero c0 (Option.some.inj hc)
        · simp at hi
        · have hg : (subst1 c0 :: c1 :: pairSubst rest).get? (i + 2)
              = (pairSubst rest).get? i := rfl
          rw [hg]
          exact ih rest i hr (by omega)

theorem mem_wordLE_lt (w x : Nat) (h : x ∈ wordLE w) : x < 256 := by
  simp only [wordLE, List.mem_cons, List.not_mem_nil, or_false] at h
  rcases h with h | h | h | h <;> subst h <;> exact Nat.mod_lt _ (by norm_num)

theorem mem_md5Bytes_lt (msg : List Nat) (x : Nat) (h : x ∈ md5Bytes msg) : x < 256 := by
  simp only [md5Bytes, List.mem_append] at h
  rcases h with ((h | h) | h) | h <;> exact mem_wordLE_lt _ _ h

theorem hexDigit_mem (n : Nat) (h : n < 16) : hexDigit n ∈ hexLowerChars := by
  interval_cases n <;> decide

theorem mem_toHexPair (b : Nat) (hb : b < 256) (c : Char) (h : c ∈ toHexPair b) :
    c ∈ hexLowerChars := by
  simp only [toHexPair, List.mem_cons, List.not_mem_nil, or_false] at h
  rcases h with h | h <;> subst h
  · exact hexDigit_mem _ ((Nat.div_lt_iff_lt_mul (by norm_num)).mpr (by omega))
  · exact hexDigit_mem _ (Nat.mod_lt _ (by norm_num))

theorem mem_md5Hexdigest (msg : List Nat) (c : Char) (h : c ∈ md5Hexdigest msg) :
    c ∈ hexLowerChars := by
  rw [md5Hexdigest] at h
  rcases List.mem_flatMap.mp h with ⟨b, hb, hc⟩
  exact mem_toHexPair b (mem_md5Bytes_lt msg b hb) c hc

/-- Claim C2: the password hasher agrees with the reference definition
written from the words of the spec on every input, and on the literal
string password both produce the known MD5-then-substitute digest. -/
theorem hash_password_matches_reference :
    (∀ p : String, hash_password p = spec_hash p)
    ∧ hash_password "password" = "5f4dcc3b5aa765d61d8327deb882cf99"
    ∧ spec_hash "password" = "5f4dcc3b5aa765d61d8327deb882cf99" := by
  refine ⟨fun p => ?_, by rfl, by rfl⟩
  show (⟨(List.range' 0 (((md5Hexdigest (strToBytes p)).length + 1) / 2) 2).foldl
      substStep (md5Hexdigest (strToBytes p))⟩ : String) = spec_hash p
  rw [md5Hexdigest_length]
  rfl

/-- Claim C3: for every password the hash is a 32-character string of
lowercase hexadecimal characters, hashing is deterministic, and no
character at an even index of the result is the digit zero. -/
theorem hash_password_shape (p : String) :
    (hash_password p).length = 32
    ∧ hash_password p = hash_password p
    ∧ (∀ c : Char, c ∈ (hash_password p).data → c ∈ hexLowerChars)
    ∧ (∀ i : Nat, i % 2 = 0 → (hash_password p).data.get? i ≠ some '0') := by
  have hlen := md5Hexdigest_length (strToBytes p)
  have hfoldl : (hash_password p).data
      = List.foldl substStep (md5Hexdigest (strToBytes p))
          (List.range' 0 (((md5Hexdigest (strToBytes p)).length + 1) / 2) 2) := rfl
  have hdata : (hash_password p).data = pairSubst (md5Hexdigest (strToBytes p)) := by
    rw [hfoldl]
    have h16 : (List.range' 0 (((md5Hexdigest (strToBytes p)).length + 1) / 2) 2)
        = List.range' 0 16 2 := by rw [hlen]
    rw [h16]
    exact foldl_substStep_eq_pairSubst 16 _ (by rw [hlen])
  refine ⟨?_, rfl, ?_, ?_⟩
  · show (hash_password p).data.length = 32
    rw [hfoldl, foldl_substStep_length, hlen]
  · intro c hc
    rw [hfoldl] at hc
    rcases foldl_substStep_subset _ _ c hc with h | h
    · exact mem_md5Hexdigest _ c h
    · subst h; decide
  · intro i hi
    rw [hdata]
    exact pairSubst_get?_even 16 _ i (by rw [hlen]) hi

/-- Witness for the C3 theorem at the literal string password and index
zero. -/
theorem hash_password_shape_witness :
    (hash_password "password").length = 32
    ∧ '5' ∈ hexLowerChars
    ∧ (hash_password "password").data.get? 0 ≠ some '0' := by
  have h := hash_password_shape "password"
  exact ⟨h.1, h.2.2.1 '5' (by decide), h.2.2.2 0 (by decide)⟩
